import Mathlib

/-!
Shallow embedding of the conversational session engine found in
static/js/chat.js (the second ChatInterface variant, lines 1329-2566, which
is the variant the claims' line references point at) and of the debounced
auto-save of static/js/brand_voice.js (the second BrandVoiceWizard variant,
lines 412-788).

Machine model: the browser runs a single event loop, and an await is the
only place where other tasks may interleave.  sendMessage has exactly one
relevant suspension point, the awaited makeRequest call, so it is split
into a pure phase before the suspension and a pure phase after it; a state
transformer mid models whatever other handlers run while the request is in
flight.  Timers and network settles are driven by explicit environments
(FetchSpec per attempt, timed update events for the wizard).
-/

/-- Message role: chat.js renders user bubbles and ai bubbles. -/
inductive Sender where
  | user
  | ai
deriving DecidableEq, Repr

/-- One rendered chat message: addMessage(content, sender, isError). -/
structure Msg where
  sender : Sender
  content : String
  isError : Bool
deriving DecidableEq, Repr

/-- Parsed JSON body returned by the /generate endpoint; sendMessage reads
the fields response and error, both of which may be absent. -/
structure GenResponse where
  response : Option String
  error : Option String
deriving DecidableEq, Repr

/-- How the fetch of one attempt settles, if the 45s abort does not fire
first: the promise rejects (network error), resolves non-ok, resolves ok
with an unparsable body, or resolves ok with a JSON body. -/
inductive FetchOutcome where
  | rejects (message : String)
  | notOk (errorMessage : String)
  | okBadJson
  | okJson (data : GenResponse)
deriving DecidableEq, Repr

/-- Environment for one attempt of makeRequest: how long the fetch would
take to settle (ms) and how it would settle. -/
structure FetchSpec where
  durationMs : Nat
  outcome : FetchOutcome
deriving DecidableEq, Repr

/-- setTimeout(() => controller.abort(), 45000) in makeRequest. -/
def perAttemptTimeoutMs : Nat := 45000

/-- Message carried by the DOMException an aborted fetch rejects with. -/
def abortMessage : String := "The operation was aborted"

/-- chat.js wraps a rejected fetch: Network request failed: message. -/
def networkFailMessage (m : String) : String :=
  "Network request failed: " ++ m

/-- JavaScript String.prototype.trim, modelled on the character list so
that it evaluates by kernel reduction: drop whitespace from both ends. -/
def jsTrim (s : String) : String :=
  String.mk
    (((s.data.dropWhile Char.isWhitespace).reverse.dropWhile
        Char.isWhitespace).reverse)

/-- Body of the try block of one makeRequest attempt (chat.js 1787-1822):
if the 45s deadline expires first, the AbortController aborts the fetch,
whose rejection is wrapped exactly like any other network failure;
otherwise a rejection is wrapped, a non-ok response throws its extracted
error message, an unparsable ok body throws the fixed message, and an ok
JSON body is returned. -/
def attemptRun (f : FetchSpec) : Except String GenResponse :=
  if perAttemptTimeoutMs ≤ f.durationMs then
    Except.error (networkFailMessage abortMessage)
  else
    match f.outcome with
    | FetchOutcome.rejects m => Except.error (networkFailMessage m)
    | FetchOutcome.notOk em => Except.error em
    | FetchOutcome.okBadJson => Except.error "Invalid response format from server"
    | FetchOutcome.okJson d => Except.ok d

/-- Observable scheduling events of makeRequest: an attempt firing and the
backoff wait setTimeout(..., Math.pow(2, attempt) * 1000). -/
inductive GatewayEvent where
  | fired (attempt : Nat)
  | waited (ms : Nat)
deriving DecidableEq, Repr

/-- The retry loop of makeRequest (chat.js 1785-1835), fuelled by the
remaining number of loop iterations.  Each iteration runs one attempt; on
success it returns the parsed body, on failure of the final attempt it
rethrows the last error, and on failure of a non-final attempt n it waits
2 ^ n seconds and retries.  Fuel 0 corresponds to the loop exiting without
returning, which cannot happen for the call sites (maxRetries = 3). -/
def makeRequestFrom (env : Nat → FetchSpec) (maxRetries : Nat) :
    Nat → Nat → Except String GenResponse × List GatewayEvent
  | 0, _ => (Except.error "", [])
  | fuel + 1, attempt =>
    match attemptRun (env attempt) with
    | Except.ok d => (Except.ok d, [GatewayEvent.fired attempt])
    | Except.error e =>
      if attempt = maxRetries then
        (Except.error e, [GatewayEvent.fired attempt])
      else
        let rest := makeRequestFrom env maxRetries fuel (attempt + 1)
        (rest.1,
          GatewayEvent.fired attempt ::
            GatewayEvent.waited (2 ^ attempt * 1000) :: rest.2)

/-- makeRequest(url, data, maxRetries): the loop starts at attempt 1. -/
def makeRequest (env : Nat → FetchSpec) (maxRetries : Nat) :
    Except String GenResponse × List GatewayEvent :=
  makeRequestFrom env maxRetries maxRetries 1

/-- makeRequest with its default maxRetries = 3, as sendMessage calls it. -/
def makeRequestDefault (env : Nat → FetchSpec) :
    Except String GenResponse × List GatewayEvent :=
  makeRequest env 3

/-- Number of attempts fired in a gateway event trace. -/
def countFired (evs : List GatewayEvent) : Nat :=
  evs.countP fun e =>
    match e with
    | GatewayEvent.fired _ => true
    | GatewayEvent.waited _ => false

/-- Sidebar entry of one chat session: data-session-id, title text and the
leading number of the "N messages" meta span. -/
structure SidebarEntry where
  id : String
  title : String
  count : Nat
deriving DecidableEq, Repr

/-- State of the ChatInterface instance together with the chat DOM it
mutates: currentSessionId, the ordered .message children of .chat-content
(the loading placeholder is tracked separately: it is appended last and
every code path removes it before appending anything else), the
isGenerating flag, the input value, the login flag and the sidebar. -/
structure ClientState where
  currentSessionId : Option String
  messages : List Msg
  loadingShown : Bool
  isGenerating : Bool
  chatInput : String
  isLoggedIn : Bool
  sidebar : List SidebarEntry
deriving DecidableEq, Repr

/-- addMessage(content, sender, isError) (chat.js 1844-1881): builds a
bubble and appends it to the .chat-content container currently shown. -/
def addMessageSt (st : ClientState) (content : String) (sender : Sender)
    (isError : Bool) : ClientState :=
  { st with messages := st.messages ++ [Msg.mk sender content isError] }

/-- Title derivation in updateChatTitleInSidebar (chat.js 2477): the first
message truncated to 47 characters plus an ellipsis when longer than 50. -/
def deriveTitle (firstMessage : String) : String :=
  if 50 < firstMessage.length then firstMessage.take 47 ++ "..." else firstMessage

/-- updateChatTitleInSidebar(sessionId, firstMessage) (chat.js 2472-2487):
if the sidebar holds an item for the session, set its title to the derived
title and bump its message count by 2. -/
def updateChatTitleInSidebar (sb : List SidebarEntry) (sid : String)
    (firstMessage : String) : List SidebarEntry :=
  sb.map fun e =>
    if e.id = sid then
      { e with title := deriveTitle firstMessage, count := e.count + 2 }
    else e

/-- addChatToSidebar(chat) (chat.js 2324-2383): update the existing entry
in place if the id is already present, otherwise prepend a new entry. -/
def addChatToSidebar (sb : List SidebarEntry) (e : SidebarEntry) :
    List SidebarEntry :=
  if sb.any (fun x => x.id = e.id) then
    sb.map fun x =>
      if x.id = e.id then { x with title := e.title, count := e.count } else x
  else e :: sb

/-- startNewChat(false) (chat.js 2228-2293, clearUI = false): null the
session pointer; a logged-out client stops there; otherwise POST
/new-session, and on success adopt the returned id and add a sidebar entry
titled New Chat, on failure leave the pointer null.  newSessionResult is
the outcome of the POST. -/
def startNewChatNoClear (st : ClientState) (newSessionResult : Option String) :
    ClientState :=
  if st.isLoggedIn then
    match newSessionResult with
    | some sid =>
      { st with
        currentSessionId := some sid
        sidebar := addChatToSidebar st.sidebar (SidebarEntry.mk sid "New Chat" 0) }
    | none => { st with currentSessionId := none }
  else
    { st with currentSessionId := none }

/-- startNewChat() (chat.js 2228-2293, clearUI = true): as above but also
clears the chat DOM (back to the welcome screen) and the input box, in the
logged-out, success and failure paths alike. -/
def startNewChatClear (st : ClientState) (newSessionResult : Option String) :
    ClientState :=
  if st.isLoggedIn then
    match newSessionResult with
    | some sid =>
      { st with
        currentSessionId := some sid
        messages := []
        chatInput := ""
        loadingShown := false
        sidebar := addChatToSidebar st.sidebar (SidebarEntry.mk sid "New Chat" 0) }
    | none =>
      { st with
        currentSessionId := none
        messages := []
        chatInput := ""
        loadingShown := false }
  else
    { st with
      currentSessionId := none
      messages := []
      chatInput := ""
      loadingShown := false }

/-- Outcome of the GET /chat/sessionId history fetch in loadChat. -/
inductive HistoryFetch where
  | ok (history : List Msg)
  | fail
deriving DecidableEq, Repr

/-- loadChat(sessionId) (chat.js 2414-2457): a no-op when the session is
already current; on a successful fetch the chat DOM is cleared and rebuilt
from the fetched history and the pointer is set to the session; on a
failed fetch the catch block nulls the pointer, clears the chat and then
awaits startNewChat() (clearUI = true), so the client ends on a freshly
created session (or with a null pointer if creation also fails). -/
def loadChat (st : ClientState) (sid : String) (fetch : HistoryFetch)
    (newSessionResult : Option String) : ClientState :=
  if st.currentSessionId = some sid then st
  else
    match fetch with
    | HistoryFetch.ok history =>
      { st with
        currentSessionId := some sid
        messages := history
        loadingShown := false }
    | HistoryFetch.fail =>
      startNewChatClear
        { st with
          currentSessionId := none
          messages := []
          loadingShown := false }
        newSessionResult

/-- The values sendMessage captures before its suspension point: the
trimmed prompt and the session_id field of requestData (chat.js 1717-1724). -/
structure Captured where
  prompt : String
  sessionId : Option String
deriving DecidableEq, Repr

/-- Phase of sendMessage before the awaited makeRequest (chat.js
1679-1727): trim the input; return early when it is empty or a generation
is already in flight; lazily create a session for a logged-in client
without one (attempted at most twice, mirroring the two guarded calls);
clear the input, raise the generating flag, append the user bubble, show
the loading placeholder, and capture prompt and session id for the
request. -/
def sendMessagePhase1 (st : ClientState) (newSessionResult : Option String) :
    Option (ClientState × Captured) :=
  let prompt := jsTrim st.chatInput
  if prompt = "" ∨ st.isGenerating then none
  else
    let st1 :=
      if st.currentSessionId.isNone && st.isLoggedIn then
        startNewChatNoClear st newSessionResult
      else st
    let st2 :=
      if st1.isLoggedIn && st1.currentSessionId.isNone then
        startNewChatNoClear st1 newSessionResult
      else st1
    let st3 :=
      { st2 with
        chatInput := ""
        isGenerating := true
        messages := st2.messages ++ [Msg.mk Sender.user prompt false]
        loadingShown := true }
    some (st3, Captured.mk prompt st3.currentSessionId)

/-- JavaScript truthiness of an optional string field. -/
def truthy : Option String → Bool
  | some s => !(s == "")
  | none => false

/-- JavaScript a || b for an optional string against a default. -/
def jsOr (o : Option String) (d : String) : String :=
  match o with
  | some s => if s = "" then d else s
  | none => d

/-- Phase of sendMessage after the awaited makeRequest resolves or rejects
(chat.js 1729-1783).  On a resolved body: drop the loading placeholder;
when body.response is truthy append it as an ai bubble and, for a
logged-in client with a current session, update that session's sidebar
title from the captured prompt; otherwise append body.error (or the fixed
apology) as an error-flagged ai bubble.  On a rejection: drop loading
placeholders, derive the message (falling back when empty), and append it
as an error-flagged ai bubble inside a nested try whose failure (modelled
by addMessageRaises) falls back to alert and appends nothing.  The finally
block clears the generating flag on every path. -/
def sendMessagePhase2 (st : ClientState) (cap : Captured)
    (gw : Except String GenResponse) (addMessageRaises : Bool) : ClientState :=
  match gw with
  | Except.ok body =>
    let stA := { st with loadingShown := false }
    if truthy body.response then
      let stB := addMessageSt stA (body.response.getD "") Sender.ai false
      let stC :=
        match stB.isLoggedIn, stB.currentSessionId with
        | true, some sid =>
          { stB with sidebar := updateChatTitleInSidebar stB.sidebar sid cap.prompt }
        | _, _ => stB
      { stC with isGenerating := false }
    else
      let stB :=
        addMessageSt stA
          (jsOr body.error "Sorry, I encountered an error. Please try again.")
          Sender.ai true
      { stB with isGenerating := false }
  | Except.error e =>
    let stA := { st with loadingShown := false }
    let errMsg := if e = "" then "Connection error. Please try again." else e
    let stB := if addMessageRaises then stA else addMessageSt stA errMsg Sender.ai true
    { stB with isGenerating := false }

/-- Whether a sendMessage invocation passed the guard on line 1682. -/
inductive SendOutcome where
  | rejected
  | completed
deriving DecidableEq, Repr

/-- A full sendMessage call: the guard and pre-suspension phase, then the
event-loop interleaving mid while the request is in flight, then the
post-suspension phase applied to the terminal gateway result.  A rejected
call leaves the state untouched and never reaches the gateway. -/
def sendMessageAround (st : ClientState) (newSessionResult : Option String)
    (env : Nat → FetchSpec) (mid : ClientState → ClientState)
    (addMessageRaises : Bool) : SendOutcome × ClientState :=
  match sendMessagePhase1 st newSessionResult with
  | none => (SendOutcome.rejected, st)
  | some (st1, cap) =>
    (SendOutcome.completed,
      sendMessagePhase2 (mid st1) cap (makeRequestDefault env).1 addMessageRaises)

/-- A sendMessage call with nothing interleaved during the request. -/
def sendMessageRun (st : ClientState) (newSessionResult : Option String)
    (env : Nat → FetchSpec) (addMessageRaises : Bool) :
    SendOutcome × ClientState :=
  sendMessageAround st newSessionResult env id addMessageRaises

/-- The backwards scan of regenerateResponse (chat.js 1985-1993): content
of the closest .message-user bubble from the end. -/
def lastUserContent (ms : List Msg) : Option String :=
  (ms.reverse.find? fun m => decide (m.sender = Sender.user)).map Msg.content

/-- querySelector of .message-ai:last-child followed by remove (chat.js
2000-2003): drop the final message only when it is an ai message. -/
def removeLastAiIfLast (ms : List Msg) : List Msg :=
  match ms.getLast? with
  | some m => if m.sender = Sender.ai then ms.dropLast else ms
  | none => ms

/-- regenerateResponse() (chat.js 1977-2008): bail out while generating;
find the last user bubble's text (bail out if none); remove the trailing
ai message if the last child is one; put the found text back into the
input and call sendMessage. -/
def regenerateResponse (st : ClientState) (newSessionResult : Option String)
    (env : Nat → FetchSpec) : ClientState :=
  if st.isGenerating then st
  else
    match lastUserContent st.messages with
    | none => st
    | some c =>
      let st1 := { st with messages := removeLastAiIfLast st.messages, chatInput := c }
      (sendMessageRun st1 newSessionResult env false).2

/-- Snapshot of the brand-voice form: the three required step-1 inputs and
the remaining fields, which collectFormData serializes opaquely. -/
structure FormState where
  companyName : String
  companyUrl : String
  voiceShortName : String
  rest : List (String × String)
deriving DecidableEq, Repr

/-- validateStep1() of the auto-saving wizard (brand_voice.js 644-656):
all three required inputs are non-blank after trimming. -/
def validateStep1 (f : FormState) : Bool :=
  (0 < (jsTrim f.companyName).length) &&
    ((0 < (jsTrim f.companyUrl).length) && (0 < (jsTrim f.voiceShortName).length))

/-- Body of the POST /auto-save-brand-voice request built by autoSave:
collectFormData() plus auto_save = true and the cached profile_id. -/
structure AutoSavePayload where
  form : FormState
  autoSaveFlag : Bool
  profileId : Option String
deriving DecidableEq, Repr

/-- autoSave() (brand_voice.js 484-514): return immediately, issuing no
persistence call, unless validateStep1 passes; otherwise issue exactly one
POST whose body is the current form snapshot. -/
def autoSave (form : FormState) (profileId : Option String) :
    Option AutoSavePayload :=
  if validateStep1 form then some (AutoSavePayload.mk form true profileId)
  else none

/-- One input or change event on a form field: the instant it happens and
the form content right after it. -/
structure TimedUpdate where
  time : Nat
  form : FormState
deriving DecidableEq, Repr

/-- setTimeout delay of scheduleAutoSave (brand_voice.js 478-481). -/
def debounceMs : Nat := 2000

/-- Timer simulation of scheduleAutoSave (brand_voice.js 471-482) driven
by time-ordered update events: each event clears any pending timer that
has not yet fired and arms a fresh one for debounceMs later; a pending
timer whose deadline precedes the next event (or the end of observation)
fires, invoking autoSave on the form as it stands at that deadline.
Returns the autoSave invocations as (fire time, form at that time). -/
def runTimer : List TimedUpdate → FormState → Option Nat → Nat →
    List (Nat × FormState)
  | [], form, pending, endTime =>
    match pending with
    | some d => if d ≤ endTime then [(d, form)] else []
    | none => []
  | e :: rest, form, pending, endTime =>
    let firedNow : List (Nat × FormState) :=
      match pending with
      | some d => if d ≤ e.time then [(d, form)] else []
      | none => []
    firedNow ++ runTimer rest e.form (some (e.time + debounceMs)) endTime

/-- All autoSave invocations produced by a burst of updates observed up to
endTime, starting from form0 with no timer pending. -/
def autoSaveInvocations (form0 : FormState) (events : List TimedUpdate)
    (endTime : Nat) : List (Nat × FormState) :=
  runTimer events form0 none endTime

/-- The persistence calls actually issued: each autoSave invocation
contributes its POST exactly when its form passes validateStep1. -/
def persistenceCalls (form0 : FormState) (profileId : Option String)
    (events : List TimedUpdate) (endTime : Nat) : List AutoSavePayload :=
  (autoSaveInvocations form0 events endTime).filterMap fun p =>
    autoSave p.2 profileId

/-- Consecutive update events each arrive strictly within debounceMs of
the previous one (the previous instant is the first argument). -/
def gapsOk : Nat → List TimedUpdate → Bool
  | _, [] => true
  | t, e :: rest => (t < e.time && e.time < t + debounceMs) && gapsOk e.time rest

/-- Instant of the last event of a burst, with a default for the empty
burst. -/
def lastTimeOf : Nat → List TimedUpdate → Nat
  | t, [] => t
  | _, e :: rest => lastTimeOf e.time rest

/-- Form after the last event of a burst, with a default. -/
def lastFormOf : FormState → List TimedUpdate → FormState
  | f, [] => f
  | _, e :: rest => lastFormOf e.form rest

/-- Concrete client state for claim C1: viewing fresh session A with a
pending prompt typed. -/
def stC1 : ClientState :=
  ClientState.mk (some "A") [] false false "hello from A" true
    [SidebarEntry.mk "A" "New Chat" 0]

/-- Concrete history of session B for claim C1. -/
def bHistoryC1 : List Msg :=
  [Msg.mk Sender.user "b question" false, Msg.mk Sender.ai "b answer" false]

/-- Gateway environment for claim C1: the request for A succeeds slowly. -/
def envC1 : Nat → FetchSpec :=
  fun _ =>
    FetchSpec.mk 100 (FetchOutcome.okJson (GenResponse.mk (some "late reply for A") none))

/-- Gateway environment for claim C1's failure conjunct: every attempt of
the request for A rejects. -/
def envC1fail : Nat → FetchSpec :=
  fun _ => FetchSpec.mk 10 (FetchOutcome.rejects "boom")

/-- Gateway environment for claim C2's witness: attempt 1 exceeds the 45s
deadline, attempt 2's fetch rejects, attempt 3 succeeds. -/
def envC2 : Nat → FetchSpec := fun n =>
  if n = 1 then
    FetchSpec.mk 60000 (FetchOutcome.okJson (GenResponse.mk (some "too late") none))
  else if n = 2 then FetchSpec.mk 10 (FetchOutcome.rejects "connection reset")
  else FetchSpec.mk 10 (FetchOutcome.okJson (GenResponse.mk (some "recovered") none))

/-- Concrete client state for claim C3's witness. -/
def stC3 : ClientState :=
  ClientState.mk (some "S3") [] false false "write me a haiku" true
    [SidebarEntry.mk "S3" "New Chat" 0]

/-- Gateway environment for claim C3: two failures, then success. -/
def envC3 : Nat → FetchSpec := fun n =>
  if n = 1 then FetchSpec.mk 10 (FetchOutcome.rejects "socket hang up")
  else if n = 2 then FetchSpec.mk 10 (FetchOutcome.notOk "HTTP 502: Bad Gateway")
  else FetchSpec.mk 10 (FetchOutcome.okJson (GenResponse.mk (some "third time works") none))

/-- Concrete client state for claim C5's witness. -/
def stC5 : ClientState :=
  ClientState.mk (some "S5") [] false false "please answer" true
    [SidebarEntry.mk "S5" "New Chat" 0]

/-- Gateway environment for claim C5: a simulated network error on every
attempt. -/
def envC5 : Nat → FetchSpec :=
  fun _ => FetchSpec.mk 10 (FetchOutcome.rejects "network down")

/-- Concrete client state for claim C6's witness. -/
def stC6 : ClientState :=
  ClientState.mk (some "S6") [] false false "first question" true
    [SidebarEntry.mk "S6" "New Chat" 0]

/-- Gateway environment for claim C6: immediate success. -/
def envC6 : Nat → FetchSpec :=
  fun _ => FetchSpec.mk 10 (FetchOutcome.okJson (GenResponse.mk (some "answer one") none))

/-- Concrete client state for claim C7: the user sits on loaded session A. -/
def stC7 : ClientState :=
  ClientState.mk (some "A") [Msg.mk Sender.user "already here" false] false false "" true
    [SidebarEntry.mk "A" "already here" 2, SidebarEntry.mk "B" "other chat" 4]

/-- Concrete client state for claim C8: the last (and only) message is a
user message with no reply yet. -/
def stC8 : ClientState :=
  ClientState.mk (some "S8") [Msg.mk Sender.user "unanswered" false] false false "" true
    [SidebarEntry.mk "S8" "unanswered" 2]

/-- Gateway environment for claim C8: success. -/
def envC8 : Nat → FetchSpec :=
  fun _ => FetchSpec.mk 10 (FetchOutcome.okJson (GenResponse.mk (some "a reply") none))

/-- A 60-character first message for claim C9's witness. -/
def longPromptC9 : String :=
  "abcdefghijklmnopqrstuvwxyzabcdefghijklmnopqrstuvwxyzabcdefgh"

/-- Concrete client state for claim C9: a fresh untitled session about to
receive its first user message. -/
def stC9 : ClientState :=
  ClientState.mk (some "S9") [] false false longPromptC9 true
    [SidebarEntry.mk "S9" "New Chat" 0]

/-- Gateway environment for claim C9: success. -/
def envC9 : Nat → FetchSpec :=
  fun _ => FetchSpec.mk 10 (FetchOutcome.okJson (GenResponse.mk (some "welcome") none))

/-- A form whose required step-1 fields are blank. -/
def formInvalid : FormState := FormState.mk "" "" "" [("tone", "warm")]

/-- A form whose required step-1 fields are all filled. -/
def formValid : FormState :=
  FormState.mk "Acme" "https://acme.test" "acme-voice" [("tone", "warm")]

/-- Number of assistant messages in a rendered conversation. -/
def countAi (ms : List Msg) : Nat :=
  ms.countP fun m => decide (m.sender = Sender.ai)

theorem makeRequestDefault_ok1 (env : Nat → FetchSpec) (d : GenResponse)
    (h1 : attemptRun (env 1) = Except.ok d) :
    makeRequestDefault env = (Except.ok d, [GatewayEvent.fired 1]) := by
  simp [makeRequestDefault, makeRequest, makeRequestFrom, h1]

theorem makeRequestDefault_ok2 (env : Nat → FetchSpec) (e1 : String)
    (d : GenResponse) (h1 : attemptRun (env 1) = Except.error e1)
    (h2 : attemptRun (env 2) = Except.ok d) :
    makeRequestDefault env =
      (Except.ok d,
        [GatewayEvent.fired 1, GatewayEvent.waited 2000, GatewayEvent.fired 2]) := by
  simp [makeRequestDefault, makeRequest, makeRequestFrom, h1, h2]

theorem makeRequestDefault_third (env : Nat → FetchSpec) (e1 e2 : String)
    (h1 : attemptRun (env 1) = Except.error e1)
    (h2 : attemptRun (env 2) = Except.error e2) :
    makeRequestDefault env =
      (attemptRun (env 3),
        [GatewayEvent.fired 1, GatewayEvent.waited 2000, GatewayEvent.fired 2,
          GatewayEvent.waited 4000, GatewayEvent.fired 3]) := by
  rcases h3 : attemptRun (env 3) with e3 | d3 <;>
    simp [makeRequestDefault, makeRequest, makeRequestFrom, h1, h2, h3]

/-- C2: the request gateway makeRequest makes at most maxAttempts = 3
attempts; attempt 1 fires immediately (first trace event, no wait before
it); each failed non-final attempt n is followed by a wait of 2 ^ n
seconds; every attempt is bounded by its own 45-second timeout whose
expiry is treated exactly like a network failure; and after the final
failed attempt the last failure is returned as a terminal error, with no
retry past maxAttempts and no silent failure. -/
theorem C2_gateway_bounded_retry (env : Nat → FetchSpec) :
    countFired (makeRequestDefault env).2 ≤ 3 ∧
    (makeRequestDefault env).2.head? = some (GatewayEvent.fired 1) ∧
    (∀ n, perAttemptTimeoutMs ≤ (env n).durationMs →
      attemptRun (env n) = Except.error (networkFailMessage abortMessage)) ∧
    (∀ d, attemptRun (env 1) = Except.ok d →
      makeRequestDefault env = (Except.ok d, [GatewayEvent.fired 1])) ∧
    (∀ e1 d, attemptRun (env 1) = Except.error e1 →
      attemptRun (env 2) = Except.ok d →
      makeRequestDefault env =
        (Except.ok d,
          [GatewayEvent.fired 1, GatewayEvent.waited (2 ^ 1 * 1000),
            GatewayEvent.fired 2])) ∧
    (∀ e1 e2, attemptRun (env 1) = Except.error e1 →
      attemptRun (env 2) = Except.error e2 →
      makeRequestDefault env =
        (attemptRun (env 3),
          [GatewayEvent.fired 1, GatewayEvent.waited (2 ^ 1 * 1000),
            GatewayEvent.fired 2, GatewayEvent.waited (2 ^ 2 * 1000),
            GatewayEvent.fired 3])) ∧
    (∀ e1 e2 e3, attemptRun (env 1) = Except.error e1 →
      attemptRun (env 2) = Except.error e2 →
      attemptRun (env 3) = Except.error e3 →
      (makeRequestDefault env).1 = Except.error e3) := by
  have hshape :
      (makeRequestDefault env).2 = [GatewayEvent.fired 1] ∨
        (makeRequestDefault env).2 =
          [GatewayEvent.fired 1, GatewayEvent.waited 2000, GatewayEvent.fired 2] ∨
        (makeRequestDefault env).2 =
          [GatewayEvent.fired 1, GatewayEvent.waited 2000, GatewayEvent.fired 2,
            GatewayEvent.waited 4000, GatewayEvent.fired 3] := by
    rcases h1 : attemptRun (env 1) with e1 | d1
    · rcases h2 : attemptRun (env 2) with e2 | d2
      · exact Or.inr (Or.inr (by rw [makeRequestDefault_third env e1 e2 h1 h2]))
      · exact Or.inr (Or.inl (by rw [makeRequestDefault_ok2 env e1 d2 h1 h2]))
    · exact Or.inl (by rw [makeRequestDefault_ok1 env d1 h1])
  refine ⟨?_, ?_, ?_, ?_, ?_, ?_, ?_⟩
  · rcases hshape with h | h | h <;> rw [h] <;> decide
  · rcases hshape with h | h | h <;> rw [h] <;> rfl
  · intro n h
    unfold attemptRun
    rw [if_pos h]
  · intro d h1
    exact makeRequestDefault_ok1 env d h1
  · intro e1 d h1 h2
    rw [makeRequestDefault_ok2 env e1 d h1 h2]
    norm_num
  · intro e1 e2 h1 h2
    rw [makeRequestDefault_third env e1 e2 h1 h2]
    norm_num
  · intro e1 e2 e3 h1 h2 h3
    rw [makeRequestDefault_third env e1 e2 h1 h2, h3]

/-- Witness for C2 at the concrete environment envC2: attempt 1 hits the
45s timeout, attempt 2's fetch rejects, attempt 3 succeeds, and the trace
shows the single backoff of 2 ^ 1 seconds between the failures. -/
theorem C2_gateway_bounded_retry_witness :
    makeRequestDefault envC2 =
      (Except.ok (GenResponse.mk (some "recovered") none),
        [GatewayEvent.fired 1, GatewayEvent.waited (2 ^ 1 * 1000),
          GatewayEvent.fired 2, GatewayEvent.waited (2 ^ 2 * 1000),
          GatewayEvent.fired 3]) :=
  (C2_gateway_bounded_retry envC2).2.2.2.2.2.1 (networkFailMessage abortMessage)
    (networkFailMessage "connection reset") rfl rfl

theorem phase1_spec (st : ClientState) (ns : Option String) (sid : String)
    (h1 : jsTrim st.chatInput ≠ "") (h2 : st.isGenerating = false)
    (h3 : st.currentSessionId = some sid) :
    sendMessagePhase1 st ns =
      some
        ({ st with
            chatInput := ""
            isGenerating := true
            messages := st.messages ++ [Msg.mk Sender.user (jsTrim st.chatInput) false]
            loadingShown := true },
          Captured.mk (jsTrim st.chatInput) (some sid)) := by
  unfold sendMessagePhase1
  simp [h1, h2, h3]

theorem sendAround_of_generating (st : ClientState) (ns : Option String)
    (env : Nat → FetchSpec) (mid : ClientState → ClientState) (raises : Bool)
    (h : st.isGenerating = true) :
    sendMessageAround st ns env mid raises = (SendOutcome.rejected, st) := by
  unfold sendMessageAround sendMessagePhase1
  simp [h]

theorem phase1_generating (st st1 : ClientState) (ns : Option String)
    (cap : Captured) (h : sendMessagePhase1 st ns = some (st1, cap)) :
    st1.isGenerating = true := by
  unfold sendMessagePhase1 at h
  by_cases hc : jsTrim st.chatInput = "" ∨ st.isGenerating
  · simp [hc] at h
  · simp only [if_neg hc] at h
    injection h with h
    have h' := congrArg (fun p : ClientState × Captured => p.1.isGenerating) h
    simpa using h'.symm

theorem phase2_ok_spec (st : ClientState) (cap : Captured) (sid : String)
    (r : String) (e? : Option String) (raises : Bool)
    (hr : r ≠ "") (hl : st.isLoggedIn = true)
    (hs : st.currentSessionId = some sid) :
    sendMessagePhase2 st cap (Except.ok (GenResponse.mk (some r) e?)) raises =
      { st with
        loadingShown := false
        messages := st.messages ++ [Msg.mk Sender.ai r false]
        sidebar := updateChatTitleInSidebar st.sidebar sid cap.prompt
        isGenerating := false } := by
  unfold sendMessagePhase2 addMessageSt
  simp [truthy, hr, hl, hs]

theorem phase2_err_spec (st : ClientState) (cap : Captured) (e : String)
    (he : e ≠ "") :
    sendMessagePhase2 st cap (Except.error e) false =
      { st with
        loadingShown := false
        messages := st.messages ++ [Msg.mk Sender.ai e true]
        isGenerating := false } := by
  unfold sendMessagePhase2 addMessageSt
  simp [he]

theorem phase2_err_raises_spec (st : ClientState) (cap : Captured) (e : String) :
    sendMessagePhase2 st cap (Except.error e) true =
      { st with loadingShown := false, isGenerating := false } := by
  unfold sendMessagePhase2
  simp

theorem phase2_clears_generating (st : ClientState) (cap : Captured)
    (gw : Except String GenResponse) (raises : Bool) :
    (sendMessagePhase2 st cap gw raises).isGenerating = false := by
  unfold sendMessagePhase2
  rcases gw with e | body
  all_goals dsimp only
  all_goals repeat' split
  all_goals rfl

/-- C3: for a submit whose generation call fails on attempts 1 and 2 and
succeeds on attempt 3, exactly one assistant message is appended to the
conversation, once, after the gateway's terminal result — never once per
retry attempt: three attempts fire, yet the conversation grows by exactly
one user and one assistant message. -/
theorem C3_single_append_under_retry (st : ClientState) (ns : Option String)
    (sid : String) (env : Nat → FetchSpec) (e1 e2 : String)
    (r : String) (eOpt : Option String)
    (hin : jsTrim st.chatInput ≠ "") (hgen : st.isGenerating = false)
    (hsid : st.currentSessionId = some sid) (hlog : st.isLoggedIn = true)
    (h1 : attemptRun (env 1) = Except.error e1)
    (h2 : attemptRun (env 2) = Except.error e2)
    (h3 : attemptRun (env 3) = Except.ok (GenResponse.mk (some r) eOpt))
    (hr : r ≠ "") :
    countFired (makeRequestDefault env).2 = 3 ∧
    (sendMessageRun st ns env false).2.messages =
      st.messages ++
        [Msg.mk Sender.user (jsTrim st.chatInput) false, Msg.mk Sender.ai r false] ∧
    countAi (sendMessageRun st ns env false).2.messages =
      countAi st.messages + 1 := by
  have hmr := makeRequestDefault_third env e1 e2 h1 h2
  have hp1 := phase1_spec st ns sid hin hgen hsid
  have hgw : (makeRequestDefault env).1 =
      Except.ok (GenResponse.mk (some r) eOpt) := by
    rw [hmr]
    exact h3
  have hrun : (sendMessageRun st ns env false).2.messages =
      st.messages ++
        [Msg.mk Sender.user (jsTrim st.chatInput) false, Msg.mk Sender.ai r false] := by
    unfold sendMessageRun sendMessageAround
    rw [hp1]
    dsimp only [id]
    rw [hgw]
    simp [sendMessagePhase2, addMessageSt, truthy, hr, hlog, hsid]
  refine ⟨?_, hrun, ?_⟩
  · rw [hmr]
    rfl
  · rw [hrun]
    simp [countAi, List.countP_append]

theorem phase1_none_of_generating (st : ClientState) (ns : Option String)
    (h : st.isGenerating = true) : sendMessagePhase1 st ns = none := by
  unfold sendMessagePhase1
  simp [h]

theorem phase1_isSome (st : ClientState) (ns : Option String)
    (h1 : jsTrim st.chatInput ≠ "") (h2 : st.isGenerating = false) :
    (sendMessagePhase1 st ns).isSome = true := by
  unfold sendMessagePhase1
  simp [h1, h2]

theorem lastTimeOf_cons (t : Nat) (e : TimedUpdate) (rest : List TimedUpdate) :
    lastTimeOf t (e :: rest) = lastTimeOf e.time rest := by
  rw [lastTimeOf]

theorem lastFormOf_cons (f : FormState) (e : TimedUpdate) (rest : List TimedUpdate) :
    lastFormOf f (e :: rest) = lastFormOf e.form rest := by
  rw [lastFormOf]

theorem runTimer_trailing (events : List TimedUpdate) :
    ∀ (prevTime : Nat) (prevForm : FormState) (endTime : Nat),
      gapsOk prevTime events = true →
      lastTimeOf prevTime events + debounceMs ≤ endTime →
      runTimer events prevForm (some (prevTime + debounceMs)) endTime =
        [(lastTimeOf prevTime events + debounceMs, lastFormOf prevForm events)] := by
  induction events with
  | nil =>
    intro t f endT _ hq
    rw [lastTimeOf] at hq
    rw [runTimer, lastTimeOf, lastFormOf, if_pos hq]
  | cons e rest ih =>
    intro t f endT hg hq
    rw [gapsOk] at hg
    simp only [Bool.and_eq_true, decide_eq_true_eq] at hg
    have hnof : ¬(t + debounceMs ≤ e.time) := by omega
    rw [lastTimeOf_cons] at hq
    rw [runTimer, lastTimeOf_cons, lastFormOf_cons]
    simp only [hnof, if_false]
    rw [ih e.time e.form endT hg.2 hq]
    simp

/-- Witness for C3 at concrete inputs: two failures and a success on
attempt 3 grow the conversation by exactly one user and one assistant
message while the gateway fired three attempts. -/
theorem C3_single_append_under_retry_witness :
    countFired (makeRequestDefault envC3).2 = 3 ∧
    (sendMessageRun stC3 none envC3 false).2.messages =
      stC3.messages ++
        [Msg.mk Sender.user "write me a haiku" false,
          Msg.mk Sender.ai "third time works" false] ∧
    countAi (sendMessageRun stC3 none envC3 false).2.messages =
      countAi stC3.messages + 1 :=
  C3_single_append_under_retry stC3 none "S3" envC3
    (networkFailMessage "socket hang up") "HTTP 502: Bad Gateway"
    "third time works" none (by decide) rfl rfl rfl rfl rfl rfl (by decide)

/-- C5: when the gateway fails all 3 attempts on a submit, exactly one
error-flagged assistant message is appended and the user's message stays
intact; the generating flag is cleared unconditionally — also when the
error-handling append itself raises and the alert fallback runs, in which
case no message is appended but the flag is still cleared; and a
subsequent manual submit passes the guard instead of being permanently
locked out. -/
theorem C5_terminal_failure_cleanup (st : ClientState) (ns : Option String)
    (sid : String) (env : Nat → FetchSpec) (e1 e2 e3 q : String)
    (hin : jsTrim st.chatInput ≠ "") (hgen : st.isGenerating = false)
    (hsid : st.currentSessionId = some sid)
    (h1 : attemptRun (env 1) = Except.error e1)
    (h2 : attemptRun (env 2) = Except.error e2)
    (h3 : attemptRun (env 3) = Except.error e3)
    (he3 : e3 ≠ "") (hq : jsTrim q ≠ "") :
    (sendMessageRun st ns env false).2.messages =
      st.messages ++
        [Msg.mk Sender.user (jsTrim st.chatInput) false, Msg.mk Sender.ai e3 true] ∧
    (sendMessageRun st ns env true).2.messages =
      st.messages ++ [Msg.mk Sender.user (jsTrim st.chatInput) false] ∧
    (∀ raises, (sendMessageRun st ns env raises).2.isGenerating = false) ∧
    (∀ raises,
      (sendMessagePhase1
          { (sendMessageRun st ns env raises).2 with chatInput := q } ns).isSome =
        true) := by
  have hmr := makeRequestDefault_third env e1 e2 h1 h2
  have hp1 := phase1_spec st ns sid hin hgen hsid
  have hgw : (makeRequestDefault env).1 = Except.error e3 := by
    rw [hmr]
    exact h3
  have hflag : ∀ raises, (sendMessageRun st ns env raises).2.isGenerating = false := by
    intro raises
    unfold sendMessageRun sendMessageAround
    rw [hp1]
    exact phase2_clears_generating _ _ _ _
  refine ⟨?_, ?_, hflag, ?_⟩
  · unfold sendMessageRun sendMessageAround
    rw [hp1]
    dsimp only [id]
    rw [hgw]
    simp [sendMessagePhase2, addMessageSt, he3]
  · unfold sendMessageRun sendMessageAround
    rw [hp1]
    dsimp only [id]
    rw [hgw]
    simp [sendMessagePhase2]
  · intro raises
    exact phase1_isSome _ ns hq (hflag raises)

/-- Witness for C5 at concrete inputs: every attempt rejects with a
simulated network error; one error-flagged assistant message is appended,
the flag is cleared (also when the handler raises), and a fourth manual
submit passes the guard. -/
theorem C5_terminal_failure_cleanup_witness :
    (sendMessageRun stC5 none envC5 false).2.messages =
      stC5.messages ++
        [Msg.mk Sender.user "please answer" false,
          Msg.mk Sender.ai (networkFailMessage "network down") true] ∧
    (sendMessageRun stC5 none envC5 true).2.messages =
      stC5.messages ++ [Msg.mk Sender.user "please answer" false] ∧
    (∀ raises, (sendMessageRun stC5 none envC5 raises).2.isGenerating = false) ∧
    (∀ raises,
      (sendMessagePhase1
          { (sendMessageRun stC5 none envC5 raises).2 with chatInput := "retry please" }
          none).isSome = true) :=
  C5_terminal_failure_cleanup stC5 none "S5" envC5
    (networkFailMessage "network down") (networkFailMessage "network down")
    (networkFailMessage "network down") "retry please"
    (by decide) rfl rfl rfl rfl rfl (by decide) (by decide)

/-- C6: a submit issued while a previous submit on the same session is
still in flight hits the isGenerating guard: it is rejected, not queued,
it leaves the client state untouched and never reaches the gateway; and
the overlapping pair of calls yields exactly one user and one assistant
message in the conversation. -/
theorem C6_concurrent_submit_rejected (st : ClientState) (ns ns2 : Option String)
    (sid : String) (env env2 : Nat → FetchSpec) (q r : String)
    (eOpt : Option String)
    (hin : jsTrim st.chatInput ≠ "") (hgen : st.isGenerating = false)
    (hsid : st.currentSessionId = some sid) (hlog : st.isLoggedIn = true)
    (henv : attemptRun (env 1) = Except.ok (GenResponse.mk (some r) eOpt))
    (hr : r ≠ "") :
    (∀ stG mid raises, stG.isGenerating = true →
      sendMessageAround stG ns2 env2 mid raises = (SendOutcome.rejected, stG)) ∧
    (∀ st1 cap, sendMessagePhase1 st ns = some (st1, cap) →
      st1.isGenerating = true) ∧
    (sendMessageAround st ns env
        (fun s => (sendMessageAround { s with chatInput := q } ns2 env2 id false).2)
        false).2.messages =
      st.messages ++
        [Msg.mk Sender.user (jsTrim st.chatInput) false,
          Msg.mk Sender.ai r false] := by
  have hp1 := phase1_spec st ns sid hin hgen hsid
  have hgw : (makeRequestDefault env).1 = Except.ok (GenResponse.mk (some r) eOpt) := by
    rw [makeRequestDefault_ok1 env (GenResponse.mk (some r) eOpt) henv]
  refine ⟨?_, ?_, ?_⟩
  · intro stG mid raises hG
    exact sendAround_of_generating stG ns2 env2 mid raises hG
  · intro st1 cap h
    exact phase1_generating st st1 ns cap h
  · unfold sendMessageAround
    rw [hp1]
    dsimp only
    rw [phase1_none_of_generating _ ns2 rfl]
    dsimp only
    rw [hgw]
    simp [sendMessagePhase2, addMessageSt, truthy, hr, hlog, hsid]

/-- Witness for C6 at concrete inputs: the interleaved second submit is
rejected and the pair leaves one user and one assistant message. -/
theorem C6_concurrent_submit_rejected_witness :
    (∀ stG mid raises, stG.isGenerating = true →
      sendMessageAround stG none envC6 mid raises = (SendOutcome.rejected, stG)) ∧
    (∀ st1 cap, sendMessagePhase1 stC6 none = some (st1, cap) →
      st1.isGenerating = true) ∧
    (sendMessageAround stC6 none envC6
        (fun s =>
          (sendMessageAround { s with chatInput := "second question" } none envC6
              id false).2)
        false).2.messages =
      stC6.messages ++
        [Msg.mk Sender.user "first question" false,
          Msg.mk Sender.ai "answer one" false] :=
  C6_concurrent_submit_rejected stC6 none none "S6" envC6 envC6
    "second question" "answer one" none (by decide) rfl rfl rfl rfl (by decide)

/-- C1 as stated is false on the code: with a submit for session A in
flight, switching to session B (whose fetched history is bHistoryC1) and
then receiving A's successful result appends A's assistant message into
the conversation now displayed — session B's message list is altered. -/
theorem C1_counterexample :
    (sendMessageAround stC1 none envC1
          (fun s => loadChat s "B" (HistoryFetch.ok bHistoryC1) none)
          false).2.messages =
      bHistoryC1 ++ [Msg.mk Sender.ai "late reply for A" false] ∧
    (sendMessageAround stC1 none envC1
          (fun s => loadChat s "B" (HistoryFetch.ok bHistoryC1) none)
          false).2.messages ≠ bHistoryC1 := by
  constructor
  · rfl
  · decide

/-- C1 amended: the result of a submit captured for session A, arriving
after the active session was switched to a different session B, is
appended into the conversation currently displayed (B's message list) —
chat.js compares no session id before addMessage, so the isolation the
claim asserts does not hold; this covers both a successful terminal result
and a terminal failure. -/
theorem C1_amended_late_result_bleeds (st : ClientState) (ns ns2 ns3 : Option String)
    (envS envF : Nat → FetchSpec) (aSid bSid : String) (bHist : List Msg)
    (r : String) (eOpt : Option String) (e1 e2 e3 : String)
    (hin : jsTrim st.chatInput ≠ "") (hgen : st.isGenerating = false)
    (hsid : st.currentSessionId = some aSid) (hAB : aSid ≠ bSid)
    (hlog : st.isLoggedIn = true)
    (hS : attemptRun (envS 1) = Except.ok (GenResponse.mk (some r) eOpt))
    (hr : r ≠ "")
    (hF1 : attemptRun (envF 1) = Except.error e1)
    (hF2 : attemptRun (envF 2) = Except.error e2)
    (hF3 : attemptRun (envF 3) = Except.error e3) (he3 : e3 ≠ "") :
    (sendMessageAround st ns envS
        (fun s => loadChat s bSid (HistoryFetch.ok bHist) ns2) false).2.messages =
      bHist ++ [Msg.mk Sender.ai r false] ∧
    (sendMessageAround st ns envF
        (fun s => loadChat s bSid (HistoryFetch.ok bHist) ns3) false).2.messages =
      bHist ++ [Msg.mk Sender.ai e3 true] := by
  have hp1 := phase1_spec st ns aSid hin hgen hsid
  have hgwS : (makeRequestDefault envS).1 = Except.ok (GenResponse.mk (some r) eOpt) := by
    rw [makeRequestDefault_ok1 envS (GenResponse.mk (some r) eOpt) hS]
  have hgwF : (makeRequestDefault envF).1 = Except.error e3 := by
    rw [makeRequestDefault_third envF e1 e2 hF1 hF2]
    exact hF3
  constructor
  · unfold sendMessageAround
    rw [hp1]
    dsimp only
    rw [hgwS]
    simp [loadChat, hsid, hAB, sendMessagePhase2, addMessageSt, truthy, hr, hlog]
  · unfold sendMessageAround
    rw [hp1]
    dsimp only
    rw [hgwF]
    simp [loadChat, hsid, hAB, sendMessagePhase2, addMessageSt, he3]

/-- Witness for the amended C1 at concrete inputs: session B's displayed
history gains A's late assistant message (success case) or A's late
error-flagged message (terminal-failure case). -/
theorem C1_amended_late_result_bleeds_witness :
    (sendMessageAround stC1 none envC1
        (fun s => loadChat s "B" (HistoryFetch.ok bHistoryC1) none) false).2.messages =
      bHistoryC1 ++ [Msg.mk Sender.ai "late reply for A" false] ∧
    (sendMessageAround stC1 none envC1fail
        (fun s => loadChat s "B" (HistoryFetch.ok bHistoryC1) none) false).2.messages =
      bHistoryC1 ++ [Msg.mk Sender.ai (networkFailMessage "boom") true] :=
  C1_amended_late_result_bleeds stC1 none none none envC1 envC1fail "A" "B"
    bHistoryC1 "late reply for A" none (networkFailMessage "boom")
    (networkFailMessage "boom") (networkFailMessage "boom")
    (by decide) rfl rfl (by decide) rfl rfl (by decide) rfl rfl rfl (by decide)

/-- C7 as stated is false on the code: when the history fetch of a switch
to session B fails, the active pointer is not left unchanged — the catch
block nulls it, clears the chat and starts a new chat, so the user ends on
a freshly created session C, not on their previous session A. -/
theorem C7_counterexample :
    stC7.currentSessionId = some "A" ∧
    (loadChat stC7 "B" HistoryFetch.fail (some "C")).currentSessionId = some "C" ∧
    (loadChat stC7 "B" HistoryFetch.fail (some "C")).currentSessionId ≠ some "A" ∧
    (loadChat stC7 "B" HistoryFetch.fail (some "C")).messages = [] := by
  refine ⟨rfl, rfl, ?_, rfl⟩
  decide

/-- C7 amended: a loadChat whose history fetch fails does not keep the
previous session: the catch nulls the pointer, clears the displayed chat
and input, and awaits startNewChat, so the client ends with an empty chat
whose pointer is the newly created session id (or null when the client is
logged out or creation fails); the failure is only logged, not surfaced
in the UI. -/
theorem C7_amended_failed_switch_resets (st : ClientState) (sid : String)
    (ns : Option String) (h : st.currentSessionId ≠ some sid) :
    loadChat st sid HistoryFetch.fail ns =
      startNewChatClear
        { st with
          currentSessionId := none
          messages := []
          loadingShown := false } ns ∧
    (loadChat st sid HistoryFetch.fail ns).messages = [] ∧
    (loadChat st sid HistoryFetch.fail ns).chatInput = "" ∧
    (loadChat st sid HistoryFetch.fail ns).currentSessionId =
      (if st.isLoggedIn = true then ns else none) := by
  have hbase : loadChat st sid HistoryFetch.fail ns =
      startNewChatClear
        { st with
          currentSessionId := none
          messages := []
          loadingShown := false } ns := by
    unfold loadChat
    rw [if_neg h]
  refine ⟨hbase, ?_, ?_, ?_⟩ <;> rw [hbase] <;> unfold startNewChatClear <;>
    rcases hl : st.isLoggedIn <;> rcases ns with _ | nsid <;>
    simp [addChatToSidebar, hl]

/-- Witness for the amended C7: the concrete failed switch ends on the
fresh session C with an empty chat. -/
theorem C7_amended_failed_switch_resets_witness :
    loadChat stC7 "B" HistoryFetch.fail (some "C") =
      startNewChatClear
        { stC7 with
          currentSessionId := none
          messages := []
          loadingShown := false } (some "C") ∧
    (loadChat stC7 "B" HistoryFetch.fail (some "C")).messages = [] ∧
    (loadChat stC7 "B" HistoryFetch.fail (some "C")).chatInput = "" ∧
    (loadChat stC7 "B" HistoryFetch.fail (some "C")).currentSessionId =
      (if stC7.isLoggedIn = true then some "C" else none) :=
  C7_amended_failed_switch_resets stC7 "B" (some "C") (by decide)

/-- C8 as stated is false on the code: on a session whose last message is
a user message with no reply yet, regenerateResponse is not a no-op and is
not rejected — the removal step removes nothing, but the last user message
is re-submitted, appending a duplicate user message and a fresh reply. -/
theorem C8_counterexample :
    stC8.messages = [Msg.mk Sender.user "unanswered" false] ∧
    (regenerateResponse stC8 none envC8).messages =
      [Msg.mk Sender.user "unanswered" false,
        Msg.mk Sender.user "unanswered" false,
        Msg.mk Sender.ai "a reply" false] ∧
    regenerateResponse stC8 none envC8 ≠ stC8 := by
  refine ⟨rfl, rfl, ?_⟩
  decide

/-- C8 amended: when the last message is a user message, the underlying
remove-last-assistant step is a silent no-op (it never deletes anything,
in particular never a user message), but regenerateResponse itself is not
a no-op and is not rejected: it re-submits the text of the most recent
user message, so the conversation gains a duplicate user message and a
fresh assistant reply. -/
theorem C8_amended_regen_resubmits (st : ClientState) (ns : Option String)
    (sid : String) (env : Nat → FetchSpec) (c r : String)
    (eOpt : Option String) (m : Msg)
    (hgen : st.isGenerating = false) (hsid : st.currentSessionId = some sid)
    (hlog : st.isLoggedIn = true)
    (hlast : st.messages.getLast? = some m) (hm : m.sender = Sender.user)
    (hfind : lastUserContent st.messages = some c) (hc : jsTrim c ≠ "")
    (henv : attemptRun (env 1) = Except.ok (GenResponse.mk (some r) eOpt))
    (hr : r ≠ "") :
    (∀ ms mla, ms.getLast? = some mla → mla.sender = Sender.user →
      removeLastAiIfLast ms = ms) ∧
    removeLastAiIfLast st.messages = st.messages ∧
    (regenerateResponse st ns env).messages =
      st.messages ++
        [Msg.mk Sender.user (jsTrim c) false, Msg.mk Sender.ai r false] := by
  have hnoop : ∀ (ms : List Msg) (mla : Msg), ms.getLast? = some mla →
      mla.sender = Sender.user → removeLastAiIfLast ms = ms := by
    intro ms mla h1 h2
    unfold removeLastAiIfLast
    rw [h1]
    simp [h2]
  have hrem := hnoop st.messages m hlast hm
  have hgw : (makeRequestDefault env).1 = Except.ok (GenResponse.mk (some r) eOpt) := by
    rw [makeRequestDefault_ok1 env (GenResponse.mk (some r) eOpt) henv]
  refine ⟨hnoop, hrem, ?_⟩
  unfold regenerateResponse
  simp only [hgen, Bool.false_eq_true, if_false]
  rw [hfind]
  dsimp only
  rw [hrem]
  unfold sendMessageRun sendMessageAround
  rw [phase1_spec { st with isGenerating := false, chatInput := c } ns sid hc rfl
    hsid]
  dsimp only [id]
  rw [hgw]
  simp [sendMessagePhase2, addMessageSt, truthy, hr, hlog, hsid]

/-- Witness for the amended C8: regenerating with only an unanswered user
message re-submits it, duplicating the user message and appending the new
reply. -/
theorem C8_amended_regen_resubmits_witness :
    (∀ ms mla, ms.getLast? = some mla → mla.sender = Sender.user →
      removeLastAiIfLast ms = ms) ∧
    removeLastAiIfLast stC8.messages = stC8.messages ∧
    (regenerateResponse stC8 none envC8).messages =
      stC8.messages ++
        [Msg.mk Sender.user "unanswered" false, Msg.mk Sender.ai "a reply" false] :=
  C8_amended_regen_resubmits stC8 none "S8" envC8 "unanswered" "a reply" none
    (Msg.mk Sender.user "unanswered" false) rfl rfl rfl rfl rfl rfl
    (by decide) rfl (by decide)

/-- C9: under a successful first submit on an untitled session, the
sidebar title derived from the first user message equals the message
itself when its length is at most 50 characters, and otherwise equals
exactly the first 47 characters of the message followed by an ellipsis. -/
theorem C9_title_truncation (st : ClientState) (ns : Option String)
    (sid t0 : String) (n0 : Nat) (env : Nat → FetchSpec) (r : String)
    (eOpt : Option String)
    (hin : jsTrim st.chatInput ≠ "") (hgen : st.isGenerating = false)
    (hsid : st.currentSessionId = some sid) (hlog : st.isLoggedIn = true)
    (hsb : st.sidebar = [SidebarEntry.mk sid t0 n0])
    (henv : attemptRun (env 1) = Except.ok (GenResponse.mk (some r) eOpt))
    (hr : r ≠ "") :
    (sendMessageRun st ns env false).2.sidebar =
      [SidebarEntry.mk sid (deriveTitle (jsTrim st.chatInput)) (n0 + 2)] ∧
    ((jsTrim st.chatInput).length ≤ 50 →
      deriveTitle (jsTrim st.chatInput) = jsTrim st.chatInput) ∧
    (50 < (jsTrim st.chatInput).length →
      deriveTitle (jsTrim st.chatInput) =
        (jsTrim st.chatInput).take 47 ++ "...") := by
  have hp1 := phase1_spec st ns sid hin hgen hsid
  have hgw : (makeRequestDefault env).1 = Except.ok (GenResponse.mk (some r) eOpt) := by
    rw [makeRequestDefault_ok1 env (GenResponse.mk (some r) eOpt) henv]
  refine ⟨?_, ?_, ?_⟩
  · unfold sendMessageRun sendMessageAround
    rw [hp1]
    dsimp only [id]
    rw [hgw]
    simp [sendMessagePhase2, addMessageSt, truthy, hr, hlog, hsid,
      updateChatTitleInSidebar, hsb]
  · intro h
    unfold deriveTitle
    rw [if_neg (by omega)]
  · intro h
    unfold deriveTitle
    rw [if_pos h]

set_option maxRecDepth 8192 in
/-- Witness for C9 at a 60-character first message: the stored title is
exactly the first 47 characters plus an ellipsis. -/
theorem C9_title_truncation_witness :
    (sendMessageRun stC9 none envC9 false).2.sidebar =
      [SidebarEntry.mk "S9"
        ("abcdefghijklmnopqrstuvwxyzabcdefghijklmnopqrstu" ++ "...") 2] := by
  have h := C9_title_truncation stC9 none "S9" "New Chat" 0 envC9 "welcome" none
    (by decide) rfl rfl rfl rfl rfl (by decide)
  rw [h.1, h.2.2 (by decide)]
  rfl

/-- C4 as stated is false on the code: a burst of updates (here a single
update, which trivially satisfies the within-T spacing) followed by a
quiet period of more than T produces zero persistence calls, not exactly
one, because autoSave returns before the POST when the required step-1
fields do not validate at fire time. -/
theorem C4_counterexample :
    gapsOk 100 ([] : List TimedUpdate) = true ∧
    lastTimeOf 100 ([] : List TimedUpdate) + debounceMs ≤ 10000 ∧
    autoSaveInvocations formValid [TimedUpdate.mk 100 formInvalid] 10000 =
      [(100 + debounceMs, formInvalid)] ∧
    persistenceCalls formValid none [TimedUpdate.mk 100 formInvalid] 10000 = [] := by
  refine ⟨rfl, by decide, rfl, rfl⟩

/-- C4 amended: for a burst of update events each arriving strictly within
T = 2000 ms of the previous one, each event cancels the pending timer and
re-arms it, and after a quiet period of T exactly one trailing autoSave
invocation fires, carrying the form state of the last update; that
invocation issues the single persistence call with exactly that payload
when the required step-1 fields validate at that moment, and otherwise
issues no persistence call at all. -/
theorem C4_amended_trailing_debounce (form0 : FormState) (pid : Option String)
    (e : TimedUpdate) (rest : List TimedUpdate) (endTime : Nat)
    (hg : gapsOk e.time rest = true)
    (hq : lastTimeOf e.time rest + debounceMs ≤ endTime) :
    autoSaveInvocations form0 (e :: rest) endTime =
      [(lastTimeOf e.time rest + debounceMs, lastFormOf e.form rest)] ∧
    persistenceCalls form0 pid (e :: rest) endTime =
      (if validateStep1 (lastFormOf e.form rest) = true then
        [AutoSavePayload.mk (lastFormOf e.form rest) true pid]
      else []) := by
  have hinv : autoSaveInvocations form0 (e :: rest) endTime =
      [(lastTimeOf e.time rest + debounceMs, lastFormOf e.form rest)] := by
    unfold autoSaveInvocations
    rw [runTimer]
    rw [runTimer_trailing rest e.time e.form endTime hg hq]
    rfl
  refine ⟨hinv, ?_⟩
  unfold persistenceCalls
  rw [hinv]
  unfold autoSave
  rcases hv : validateStep1 (lastFormOf e.form rest) <;> simp [hv]

/-- Witness for the amended C4: two updates 1000 ms apart followed by
quiet; one trailing invocation fires at 3000 ms with the latest form,
which validates, so exactly one persistence call carries it. -/
theorem C4_amended_trailing_debounce_witness :
    autoSaveInvocations formInvalid
        [TimedUpdate.mk 0 formInvalid, TimedUpdate.mk 1000 formValid] 5000 =
      [(lastTimeOf 0 [TimedUpdate.mk 1000 formValid] + debounceMs,
        lastFormOf formInvalid [TimedUpdate.mk 1000 formValid])] ∧
    persistenceCalls formInvalid none
        [TimedUpdate.mk 0 formInvalid, TimedUpdate.mk 1000 formValid] 5000 =
      (if validateStep1
            (lastFormOf formInvalid [TimedUpdate.mk 1000 formValid]) = true then
        [AutoSavePayload.mk (lastFormOf formInvalid [TimedUpdate.mk 1000 formValid])
          true none]
      else []) :=
  C4_amended_trailing_debounce formInvalid none (TimedUpdate.mk 0 formInvalid)
    [TimedUpdate.mk 1000 formValid] 5000 (by decide) (by decide)

/-- C10: whenever the debounced auto-save timer fires while the three
required step-1 fields do not all validate, autoSave returns immediately
and issues no persistence call, so a burst whose every firing carries an
invalid form silently persists nothing (until some later edit re-triggers
the debounce with valid required fields). -/
theorem C10_autosave_validation_guard (f : FormState) (pid : Option String)
    (form0 : FormState) (events : List TimedUpdate) (endTime : Nat)
    (hf : validateStep1 f = false)
    (hall : ∀ p ∈ autoSaveInvocations form0 events endTime,
      validateStep1 p.2 = false) :
    autoSave f pid = none ∧
    persistenceCalls form0 pid events endTime = [] := by
  constructor
  · unfold autoSave
    rw [hf]
    rfl
  · unfold persistenceCalls
    rw [List.filterMap_eq_nil_iff]
    intro p hp
    unfold autoSave
    rw [hall p hp]
    rfl

/-- Witness for C10: a burst whose only firing carries a blank required
field issues no persistence call. -/
theorem C10_autosave_validation_guard_witness :
    autoSave formInvalid none = none ∧
    persistenceCalls formValid none [TimedUpdate.mk 100 formInvalid] 10000 = [] :=
  C10_autosave_validation_guard formInvalid none formValid
    [TimedUpdate.mk 100 formInvalid] 10000 (by decide) (by decide)
